import Mathlib

/-!
Verification of the bias-and-fairness evaluation lifecycle controller
(`src/BiasAndFairnessServers/src/controllers/bias_and_fairness.py`).

The embedding models Python JSON-like values (`PyVal`), the dict `.get`
method (`pyget`), the config materialization block of
`create_config_and_run_evaluation` (source lines 286-343), the background
runner `run_bias_fairness_evaluation` (lines 394-469), the status polling
endpoint `get_upload_status` (lines 77-86), `update_job_status`
(lines 471-479), and the delete controller (lines 518-538).

The `crud.bias_and_fairness` and `database.redis` modules are not part of
the sources; their primitives are modelled from the spec (each such
definition carries a doc comment starting `Modelled from the spec:`).
-/

set_option maxHeartbeats 1000000

/-- Python JSON-like runtime values: None, bool, int, float, str, list, dict.
Floats are decimal literals only (`pyfloat m e` denotes `m / 10^e`); no float
arithmetic occurs anywhere in the modelled code. Dicts are association lists
with unique keys, looked up first-match. -/
inductive PyVal where
  | pynone
  | pybool (b : Bool)
  | pyint (n : Int)
  | pyfloat (mantissa : Int) (exponent : Nat)
  | pystr (s : String)
  | pylist (xs : List PyVal)
  | pydict (fields : List (String × PyVal))
deriving Repr

/-- Empty Python dict `\x7b\x7d`, the default used in `.get(key, \x7b\x7d)` chains. -/
def emptyDict : PyVal := .pydict []

/-- Python type name of a value, as it appears in `AttributeError` messages. -/
def pyTypeName : PyVal → String
  | .pynone => "NoneType"
  | .pybool _ => "bool"
  | .pyint _ => "int"
  | .pyfloat _ _ => "float"
  | .pystr _ => "str"
  | .pylist _ => "list"
  | .pydict _ => "dict"

/-- Python `v.get(k, d)`: defined only on dicts; on any other value it raises
`AttributeError` (modelled as `Except.error`). On a dict it returns the value
stored at `k`, or `d` when `k` is absent. -/
def pyget (v : PyVal) (k : String) (d : PyVal) : Except String PyVal :=
  match v with
  | .pydict fs => .ok ((List.lookup k fs).getD d)
  | w => .error ("\x27" ++ pyTypeName w ++ "\x27 object has no attribute \x27get\x27")

/-- Boolean test for a dict value. -/
def isDict : PyVal → Bool
  | .pydict _ => true
  | _ => false

/-- Total read of the `k` slot of `v` with default `\x7b\x7d` (used to state
which slots of the overrides are accessed as mappings). -/
def slotD (v : PyVal) (k : String) : PyVal :=
  match v with
  | .pydict fs => (List.lookup k fs).getD emptyDict
  | _ => emptyDict

/-- Success test for an `Except` computation. -/
def exOk : Except String PyVal → Bool
  | .ok _ => true
  | .error _ => false

/-- Config materialization block of `create_config_and_run_evaluation`
(source lines 286-343): each field of the config dict is read from the
caller-supplied `config_data` via `.get` chains with inline defaults; any
`.get` on a non-dict raises (propagated as `Except.error`, caught by the
controller's `except` clause). The bound names follow the order in which the
source's dict literal evaluates its fields. -/
def materializeConfig (config_data : PyVal) : Except String PyVal := do
  let dataset_name ← pyget (← pyget config_data "dataset" emptyDict) "name" (.pystr "adult-census-income")
  let dataset_source ← pyget (← pyget config_data "dataset" emptyDict) "source" (.pystr "scikit-learn/adult-census-income")
  let dataset_split ← pyget (← pyget config_data "dataset" emptyDict) "split" (.pystr "train")
  let dataset_platform ← pyget (← pyget config_data "dataset" emptyDict) "platform" (.pystr "huggingface")
  let protected_attributes ← pyget config_data "protected_attributes" (.pylist [.pystr "sex", .pystr "race"])
  let target_column ← pyget config_data "target_column" (.pystr "income")
  let sampling_enabled ← pyget (← pyget config_data "sampling" emptyDict) "enabled" (.pybool true)
  let sampling_n_samples ← pyget (← pyget config_data "sampling" emptyDict) "n_samples" (.pyint 50)
  let sampling_random_seed ← pyget (← pyget config_data "sampling" emptyDict) "random_seed" (.pyint 42)
  let favorable_outcome ← pyget (← pyget (← pyget config_data "post_processing" emptyDict) "binary_mapping" emptyDict) "favorable_outcome" (.pystr ">50K")
  let unfavorable_outcome ← pyget (← pyget (← pyget config_data "post_processing" emptyDict) "binary_mapping" emptyDict) "unfavorable_outcome" (.pystr "<=50K")
  let attribute_groups ← pyget (← pyget config_data "post_processing" emptyDict) "attribute_groups" (.pydict [
    ("sex", .pydict [("privileged", .pylist [.pystr "Male"]), ("unprivileged", .pylist [.pystr "Female"])]),
    ("race", .pydict [("privileged", .pylist [.pystr "White"]), ("unprivileged", .pylist [.pystr "Black", .pystr "Other"])])])
  let model_task ← pyget (← pyget config_data "model" emptyDict) "model_task" (.pystr "binary_classification")
  let label_behavior ← pyget (← pyget config_data "model" emptyDict) "label_behavior" (.pystr "binary")
  let model_id ← pyget (← pyget config_data "model" emptyDict) "model_id" (.pystr "TinyLlama/TinyLlama-1.1B-Chat-v1.0")
  let fairness_metrics ← pyget (← pyget config_data "metrics" emptyDict) "fairness" (.pylist [.pystr "demographic_parity", .pystr "equalized_odds", .pystr "predictive_parity"])
  let performance_metrics ← pyget (← pyget config_data "metrics" emptyDict) "performance" (.pylist [.pystr "accuracy", .pystr "precision", .pystr "recall", .pystr "f1_score"])
  .ok (.pydict [
    ("dataset", .pydict [
      ("name", dataset_name),
      ("source", dataset_source),
      ("split", dataset_split),
      ("platform", dataset_platform),
      ("protected_attributes", protected_attributes),
      ("target_column", target_column),
      ("sampling", .pydict [
        ("enabled", sampling_enabled),
        ("n_samples", sampling_n_samples),
        ("random_seed", sampling_random_seed)])]),
    ("post_processing", .pydict [
      ("binary_mapping", .pydict [
        ("favorable_outcome", favorable_outcome),
        ("unfavorable_outcome", unfavorable_outcome)]),
      ("attribute_groups", attribute_groups)]),
    ("model", .pydict [
      ("model_task", model_task),
      ("label_behavior", label_behavior),
      ("huggingface", .pydict [
        ("enabled", .pybool true),
        ("model_id", model_id),
        ("device", .pystr "cuda"),
        ("max_new_tokens", .pyint 50),
        ("temperature", .pyfloat 7 1),
        ("top_p", .pyfloat 9 1),
        ("system_prompt", .pystr "You are a strict classifier. You must answer with exactly one of these two strings: \x27>50K\x27 or \x27<=50K\x27. No explanation. No formatting.")])]),
    ("metrics", .pydict [
      ("fairness", .pydict [
        ("enabled", .pybool true),
        ("metrics", fairness_metrics)]),
      ("performance", .pydict [
        ("enabled", .pybool true),
        ("metrics", performance_metrics)])]),
    ("artifacts", .pydict [
      ("inference_results_path", .pystr "artifacts/cleaned_inference_results.csv"),
      ("postprocessed_results_path", .pystr "artifacts/postprocessed_results.csv")])])

/-- Full default configuration template: the value `materializeConfig`
produces when no override is supplied, with every default enumerated. -/
def defaultTemplate : PyVal := .pydict [
  ("dataset", .pydict [
    ("name", .pystr "adult-census-income"),
    ("source", .pystr "scikit-learn/adult-census-income"),
    ("split", .pystr "train"),
    ("platform", .pystr "huggingface"),
    ("protected_attributes", .pylist [.pystr "sex", .pystr "race"]),
    ("target_column", .pystr "income"),
    ("sampling", .pydict [
      ("enabled", .pybool true),
      ("n_samples", .pyint 50),
      ("random_seed", .pyint 42)])]),
  ("post_processing", .pydict [
    ("binary_mapping", .pydict [
      ("favorable_outcome", .pystr ">50K"),
      ("unfavorable_outcome", .pystr "<=50K")]),
    ("attribute_groups", .pydict [
      ("sex", .pydict [("privileged", .pylist [.pystr "Male"]), ("unprivileged", .pylist [.pystr "Female"])]),
      ("race", .pydict [("privileged", .pylist [.pystr "White"]), ("unprivileged", .pylist [.pystr "Black", .pystr "Other"])])])]),
  ("model", .pydict [
    ("model_task", .pystr "binary_classification"),
    ("label_behavior", .pystr "binary"),
    ("huggingface", .pydict [
      ("enabled", .pybool true),
      ("model_id", .pystr "TinyLlama/TinyLlama-1.1B-Chat-v1.0"),
      ("device", .pystr "cuda"),
      ("max_new_tokens", .pyint 50),
      ("temperature", .pyfloat 7 1),
      ("top_p", .pyfloat 9 1),
      ("system_prompt", .pystr "You are a strict classifier. You must answer with exactly one of these two strings: \x27>50K\x27 or \x27<=50K\x27. No explanation. No formatting.")])]),
  ("metrics", .pydict [
    ("fairness", .pydict [
      ("enabled", .pybool true),
      ("metrics", .pylist [.pystr "demographic_parity", .pystr "equalized_odds", .pystr "predictive_parity"])]),
    ("performance", .pydict [
      ("enabled", .pybool true),
      ("metrics", .pylist [.pystr "accuracy", .pystr "precision", .pystr "recall", .pystr "f1_score"])])]),
  ("artifacts", .pydict [
    ("inference_results_path", .pystr "artifacts/cleaned_inference_results.csv"),
    ("postprocessed_results_path", .pystr "artifacts/postprocessed_results.csv")])]

/-- Predicate on the caller-supplied overrides characterizing when every
`.get` chain in `materializeConfig` is applied to a mapping: the overrides
value itself and each of the slots accessed as containers (`dataset`,
`sampling`, `post_processing`, `post_processing.binary_mapping`, `model`,
`metrics`) is, when present, a dict. Leaf slots are returned as-is whatever
their type. -/
def wellTypedOverrides (cd : PyVal) : Bool :=
  isDict cd && isDict (slotD cd "dataset") && isDict (slotD cd "sampling") &&
  isDict (slotD cd "post_processing") &&
  isDict (slotD (slotD cd "post_processing") "binary_mapping") &&
  isDict (slotD cd "model") && isDict (slotD cd "metrics")

/-- Replacement of the value stored at key `k` of a dict (identity on
non-dicts and absent keys); used to state the single-path effect of a
partial override. -/
def dictSet (v : PyVal) (k : String) (x : PyVal) : PyVal :=
  match v with
  | .pydict fs => .pydict (fs.map (fun p => if p.1 == k then (p.1, x) else p))
  | w => w

/-- Replacement of the `dataset.sampling.n_samples` leaf of a config value. -/
def setSamplingN (c : PyVal) (n : PyVal) : PyVal :=
  dictSet c "dataset"
    (dictSet (slotD c "dataset") "sampling"
      (dictSet (slotD (slotD c "dataset") "sampling") "n_samples" n))

/-- Overrides payload that sets only `sampling.n_samples = 10`. -/
def overrideN10 : PyVal := .pydict [("sampling", .pydict [("n_samples", .pyint 10)])]

/-! ## Transient Status Store (Redis) and status polling -/

/-- Transient Status Store contents: job id to latest status payload. -/
def JobStore := List (Int × PyVal)

/-- Modelled from the spec: `database.redis.get_job_status` (module not under
`src/`) - non-destructive read (`peek`) of the Transient Status Store. -/
def get_job_status (store : JobStore) (job_id : Int) : Option PyVal :=
  List.lookup job_id store

/-- Modelled from the spec: `database.redis.delete_job_status` (module not
under `src/`) - removes the entry for `job_id`, if any. -/
def delete_job_status (store : JobStore) (job_id : Int) : JobStore :=
  store.filter (fun p => p.1 != job_id)

/-- Modelled from the spec: `database.redis.set_job_status` (module not under
`src/`) - overwrites any existing entry for `job_id` (last-write-wins). -/
def set_job_status (store : JobStore) (job_id : Int) (payload : PyVal) : JobStore :=
  (job_id, payload) :: delete_job_status store job_id

/-- HTTP-level outcome of a controller call: a JSON 200, an empty 204, an
accepted 202, or an `HTTPException` carrying a status code and detail. -/
inductive HttpResp where
  | json200 (content : PyVal)
  | empty204
  | accepted202 (content : PyVal)
  | httpError (code : Nat) (detail : String)
deriving Repr

/-- Status polling endpoint `get_upload_status` (source lines 77-86): peek
the Transient Status Store; absent yields an empty `204` response and leaves
the store untouched; present yields the payload as JSON `200` after deleting
the entry. Returns the response together with the store left behind. -/
def get_upload_status (store : JobStore) (job_id : Int) : HttpResp × JobStore :=
  match get_job_status store job_id with
  | none => (.empty204, store)
  | some value => (.json200 value, delete_job_status store job_id)

/-! ## Evaluation Runner -/

/-- Durable evaluation record's lifecycle fields: current status string and,
once terminal, the results payload (or none). -/
structure EvalRecord where
  status : String
  results : Option PyVal
deriving Repr

/-- Environment of one runner execution: outcome of the external computation
(exit code, stderr, results artifact), and the behavior of each fallible
orchestration step (`some msg` means the step raises with text `msg`,
`none` means it succeeds). -/
structure RunEnv where
  runningUpdateError : Option String
  chdirError : Option String
  subprocError : Option String
  returncode : Int
  stderr : String
  artifactExists : Bool
  artifactContent : Except String PyVal
  terminalUpdateError : Option String
  exceptUpdateError : Option String
  redisError : Option String

/-- State threaded through a runner execution: the evaluation record, the
ordered trace of (status, results) updates applied to it, and the Transient
Status Store. -/
structure RunState where
  record : EvalRecord
  trace : List (String × Option PyVal)
  redis : JobStore

/-- Modelled from the spec: `crud.bias_and_fairness.update_bias_fairness_evaluation_status`
(module not under `src/`) - records the new status and results payload on the
evaluation record; the applied update is also appended to the trace. -/
def update_bias_fairness_evaluation_status (s : RunState) (status : String)
    (results : Option PyVal) : RunState :=
  { s with record := ⟨status, results⟩, trace := s.trace ++ [(status, results)] }

/-- Helper `update_job_status` (source lines 471-479): writes the payload to
the Transient Status Store inside a `try/except` that swallows every failure
(`print` and continue), so it never raises. -/
def update_job_status (env : RunEnv) (s : RunState) (job_id : Int)
    (status_data : PyVal) : RunState :=
  match env.redisError with
  | some _ => s
  | none => { s with redis := set_job_status s.redis job_id status_data }

/-- Job-status payload written on success (source lines 430-435). -/
def completedPayload (eval_id : String) (results : PyVal) : PyVal :=
  .pydict [("status", .pystr "completed"), ("eval_id", .pystr eval_id),
    ("results", results), ("message", .pystr "Evaluation completed successfully")]

/-- Job-status payload written when the process exits 0 but the results file
is absent (source lines 441-446). -/
def missingResultsPayload (eval_id : String) : PyVal :=
  .pydict [("status", .pystr "failed"), ("eval_id", .pystr eval_id),
    ("error", .pystr "Results file not found"),
    ("message", .pystr "Evaluation failed - results file not generated")]

/-- Job-status payload written when the process exits nonzero, carrying its
stderr verbatim (source lines 452-457). -/
def processErrorPayload (eval_id stderr : String) : PyVal :=
  .pydict [("status", .pystr "failed"), ("eval_id", .pystr eval_id),
    ("error", .pystr stderr),
    ("message", .pystr "Evaluation failed - CLI execution error")]

/-- Job-status payload written by the `except` clause for an orchestration
exception with text `msg` (source lines 464-469). -/
def exceptionPayload (eval_id msg : String) : PyVal :=
  .pydict [("status", .pystr "failed"), ("eval_id", .pystr eval_id),
    ("error", .pystr msg), ("message", .pystr ("Evaluation failed: " ++ msg))]

/-- Body of the `except Exception` clause of `run_bias_fairness_evaluation`
(source lines 459-469), entered with the exception text `msg`: it updates the
record to `failed` with no results (this update is NOT wrapped in its own
handler, so if it raises the exception propagates out of the background
task - modelled by returning `Except.error`), then best-effort writes the
failed job status. -/
def runExceptClause (env : RunEnv) (job_id : Int) (eval_id : String)
    (msg : String) (s : RunState) : Except String Unit × RunState :=
  match env.exceptUpdateError with
  | some e2 => (.error e2, s)
  | none =>
      let s := update_bias_fairness_evaluation_status s "failed" none
      let s := update_job_status env s job_id (exceptionPayload eval_id msg)
      (.ok (), s)

/-- Background runner `run_bias_fairness_evaluation` (source lines 394-469):
transition the record to `running`, chdir, invoke the external CLI process,
then reconcile: exit 0 with a parsable results artifact yields `completed`
with those results and a completed job status; exit 0 without the artifact
yields `failed` plus the missing-results job status; nonzero exit yields
`failed` plus a job status carrying stderr verbatim. Any exception in these
steps falls into the `except` clause. The first component is `Except.error e`
exactly when an exception escapes the background task. -/
def run_bias_fairness_evaluation (env : RunEnv) (job_id : Int)
    (eval_id : String) (s0 : RunState) : Except String Unit × RunState :=
  match env.runningUpdateError with
  | some m => runExceptClause env job_id eval_id m s0
  | none =>
  let s1 := update_bias_fairness_evaluation_status s0 "running" none
  match env.chdirError with
  | some m => runExceptClause env job_id eval_id m s1
  | none =>
  match env.subprocError with
  | some m => runExceptClause env job_id eval_id m s1
  | none =>
  if env.returncode = 0 then
    if env.artifactExists then
      match env.artifactContent with
      | .error m => runExceptClause env job_id eval_id m s1
      | .ok results =>
        match env.terminalUpdateError with
        | some m => runExceptClause env job_id eval_id m s1
        | none =>
          let s2 := update_bias_fairness_evaluation_status s1 "completed" (some results)
          let s3 := update_job_status env s2 job_id (completedPayload eval_id results)
          (.ok (), s3)
    else
      match env.terminalUpdateError with
      | some m => runExceptClause env job_id eval_id m s1
      | none =>
        let s2 := update_bias_fairness_evaluation_status s1 "failed" none
        let s3 := update_job_status env s2 job_id (missingResultsPayload eval_id)
        (.ok (), s3)
  else
    match env.terminalUpdateError with
    | some m => runExceptClause env job_id eval_id m s1
    | none =>
      let s2 := update_bias_fairness_evaluation_status s1 "failed" none
      let s3 := update_job_status env s2 job_id (processErrorPayload eval_id env.stderr)
      (.ok (), s3)

/-- Initial runner state: record freshly created as `pending`, empty trace,
empty Transient Status Store. -/
def initRunState : RunState := ⟨⟨"pending", none⟩, [], []⟩

/-! ## Evaluation Record Store and the delete controller -/

/-- Durable evaluation row as inserted by `insert_bias_fairness_evaluation`:
identifier, descriptive fields, the serialized config snapshot (modelled by
value - `json.dumps` keeps a by-value copy, not a live reference), owning
tenant, lifecycle status and results. -/
structure BFEvaluation where
  eval_id : String
  model_name : PyVal
  dataset_name : PyVal
  model_task : PyVal
  label_behavior : PyVal
  config_data : PyVal
  tenant : String
  status : String
  results : Option PyVal
deriving Repr

/-- Evaluation Record Store contents. -/
def EvalStore := List BFEvaluation

/-- Tenant-scoped lookup of an evaluation record. -/
def findEval (store : EvalStore) (eval_id tenant : String) : Option BFEvaluation :=
  List.find? (fun r => r.eval_id == eval_id && r.tenant == tenant) store

/-- Modelled from the spec: `crud.bias_and_fairness.delete_bias_fairness_evaluation`
(module not under `src/`) - returns true and removes the record when one
exists for this `eval_id` and `tenant`; returns false leaving the store
unchanged when absent (false is not an error). -/
def delete_bias_fairness_evaluation (store : EvalStore) (eval_id tenant : String) :
    Bool × EvalStore :=
  match findEval store eval_id tenant with
  | some _ => (true, List.filter (fun r => !(r.eval_id == eval_id && r.tenant == tenant)) store)
  | none => (false, store)

/-- Delete controller `delete_bias_fairness_evaluation_controller` (source
lines 518-538): a missing record raises `HTTPException 404` which the handler
re-raises as the HTTP response; any other exception from the crud call
(modelled by `crudError`) becomes an `HTTPException 500`; success returns a
JSON 200 message. Every outcome is a handled HTTP response. -/
def delete_bias_fairness_evaluation_controller (crudError : Option String)
    (store : EvalStore) (eval_id tenant : String) : HttpResp × EvalStore :=
  match crudError with
  | some e => (.httpError 500 ("Failed to delete evaluation: " ++ e), store)
  | none =>
    let (result, store2) := delete_bias_fairness_evaluation store eval_id tenant
    if result then
      (.json200 (.pydict [("message", .pystr ("Evaluation " ++ eval_id ++ " deleted successfully"))]), store2)
    else
      (.httpError 404 ("Evaluation with ID " ++ eval_id ++ " not found"), store)

/-! ## Submission: create_config_and_run_evaluation -/

/-- Server-side state visible to the submission controller: the filesystem
(path to written config value, `yaml.dump` modelled by value), the Job
Sequencer's backing counter, the Evaluation Record Store, and the list of
Runner invocations scheduled via `background_tasks.add_task`, each carrying
`(job_id, config_path, eval_id, tenant)`. -/
structure SubmitState where
  fs : List (String × PyVal)
  jobCounter : Int
  evals : EvalStore
  tasks : List (Int × String × String × String)

/-- Overwriting filesystem write. -/
def fsWrite (fs : List (String × PyVal)) (path : String) (content : PyVal) :
    List (String × PyVal) :=
  (path, content) :: fs.filter (fun p => p.1 != path)

/-- Fixed config artifact path used by every submission (source lines 282,
346): `config_dir / "config.yaml"` with `config_dir =
Path("BiasAndFairnessModule/configs")`. -/
def configYamlPath : String := "BiasAndFairnessModule/configs/config.yaml"

/-- Evaluation identifier minted at submission (source line 354):
`f"eval_{int(job_id)}_{int(...time())}"`. -/
def evalIdOf (job_id time : Int) : String :=
  "eval_" ++ toString job_id ++ "_" ++ toString time

/-- Record-field reads performed by `create_config_and_run_evaluation` after
building the config (source lines 360-363), sharing the controller's
`try` scope with `materializeConfig`. -/
def submitFields (config_data : PyVal) : Except String (PyVal × PyVal × PyVal × PyVal × PyVal) := do
  let config ← materializeConfig config_data
  let model_name ← pyget (← pyget config_data "model" emptyDict) "model_id" (.pystr "Unknown Model")
  let dataset_name ← pyget (← pyget config_data "dataset" emptyDict) "name" (.pystr "Unknown Dataset")
  let model_task ← pyget (← pyget config_data "model" emptyDict) "model_task" (.pystr "binary_classification")
  let label_behavior ← pyget (← pyget config_data "model" emptyDict) "label_behavior" (.pystr "binary")
  .ok (config, model_name, dataset_name, model_task, label_behavior)

/-- Submission controller `create_config_and_run_evaluation` (source lines
276-392): materialize the config, write it to the single fixed path
`configYamlPath` (overwriting any previous submission's file), mint a job id
from the sequencer (modelled from the spec: `get_next_job_id` atomically
increments the shared counter), mint the eval id, insert the durable record
holding a serialized snapshot of this submission's config with status
`pending` (insert modelled from the spec), schedule the Runner with the
shared path, and return 202. Any exception while building the config becomes
an `HTTPException 500` and leaves the state unchanged. -/
def create_config_and_run_evaluation (time : Int) (config_data : PyVal)
    (tenant : String) (s : SubmitState) : HttpResp × SubmitState :=
  match submitFields config_data with
  | .error e => (.httpError 500 ("Failed to create config and start evaluation: " ++ e), s)
  | .ok (config, model_name, dataset_name, model_task, label_behavior) =>
    let fs1 := fsWrite s.fs configYamlPath config
    let job_id := s.jobCounter + 1
    let eval_id := evalIdOf job_id time
    let record : BFEvaluation :=
      ⟨eval_id, model_name, dataset_name, model_task, label_behavior, config, tenant, "pending", none⟩
    (.accepted202 (.pydict [
        ("message", .pystr "Configuration created and evaluation started"),
        ("job_id", .pyint job_id),
        ("eval_id", .pystr eval_id),
        ("config_path", .pystr configYamlPath)]),
      { fs := fs1, jobCounter := job_id, evals := record :: s.evals,
        tasks := s.tasks ++ [(job_id, configYamlPath, eval_id, tenant)] })

/-- Initial server state for concrete scenarios. -/
def initSubmitState : SubmitState := ⟨[], 0, [], []⟩

/-- Statuses applied to the evaluation record during a run, in order. -/
def traceStatuses (s : RunState) : List String := s.trace.map Prod.fst

/-- Environment of a fully successful run: exit 0, artifact present and
parsable, no infrastructure failure. -/
def envSuccess : RunEnv :=
  ⟨none, none, none, 0, "", true, .ok (.pydict [("accuracy", .pyfloat 95 2)]), none, none, none⟩

/-- Environment where the external process exits 0 but writes no artifact. -/
def envMissing : RunEnv :=
  ⟨none, none, none, 0, "", false, .ok emptyDict, none, none, none⟩

/-- Environment where the external process exits 2 with stderr `OOM`. -/
def envOom : RunEnv :=
  ⟨none, none, none, 2, "OOM", true, .ok emptyDict, none, none, none⟩

/-- Environment where the subprocess invocation raises and the record-store
update inside the `except` clause then raises too. -/
def envCrashInHandler : RunEnv :=
  ⟨none, none, some "boom", 0, "", true, .ok emptyDict, none, some "database unavailable", none⟩

/-- Environment where the subprocess invocation raises and the `except`
clause's record update succeeds. -/
def envHandlerOk : RunEnv :=
  ⟨none, none, some "boom", 0, "", true, .ok emptyDict, none, none, none⟩

/-- Environment where the very first record update (to `running`) raises. -/
def envRunningFails : RunEnv :=
  ⟨some "database unavailable", none, none, 0, "", true, .ok emptyDict, none, none, none⟩

/-- Sample Transient Status Store holding one entry for job 1. -/
def sampleStore : JobStore := [(1, .pystr "done")]

/-- Sample Evaluation Record Store holding one record of tenant `tenantA`. -/
def sampleEvals : EvalStore :=
  [⟨"eval_1_7", .pystr "m", .pystr "d", .pystr "t", .pystr "b", emptyDict, "tenantA", "pending", none⟩]

/-- Overrides whose `model` slot holds a list, an incompatible type for a
mapping slot. -/
def badOverrides : PyVal := .pydict [("model", .pylist [])]

/-- Exception raised by the `try` block of `run_bias_fairness_evaluation`
in environment `env`, if any: the message of the first orchestration step
that raises, following the block's own order (the `running` record update,
`os.chdir`, the subprocess invocation, then - depending on exit code and
artifact presence - the artifact open/parse and the terminal record update).
`none` means the `try` block runs to completion without an exception. -/
def orchestrationException (env : RunEnv) : Option String :=
  match env.runningUpdateError with
  | some m => some m
  | none =>
  match env.chdirError with
  | some m => some m
  | none =>
  match env.subprocError with
  | some m => some m
  | none =>
  if env.returncode = 0 then
    if env.artifactExists then
      match env.artifactContent with
      | .error m => some m
      | .ok _ =>
        match env.terminalUpdateError with
        | some m => some m
        | none => none
    else
      match env.terminalUpdateError with
      | some m => some m
      | none => none
  else
    match env.terminalUpdateError with
    | some m => some m
    | none => none

/-! ## Helper lemmas -/

@[simp] theorem exOk_ok (a : PyVal) : exOk (.ok a) = true := rfl

@[simp] theorem exOk_error (e : String) : exOk (.error e) = false := rfl

theorem ebind_ok {α β : Type} (a : α) (f : α → Except String β) :
    (Except.ok a >>= f) = f a := rfl

theorem ebind_error {α β : Type} (e : String) (f : α → Except String β) :
    ((Except.error e : Except String α) >>= f) = Except.error e := rfl

theorem pyget_pydict (fs : List (String × PyVal)) (k : String) (d : PyVal) :
    pyget (.pydict fs) k d = .ok ((List.lookup k fs).getD d) := rfl

theorem pyget_not_dict (v : PyVal) (k : String) (d : PyVal) (h : isDict v = false) :
    ∃ e, pyget v k d = .error e := by
  cases v <;> first
    | exact ⟨_, rfl⟩
    | simp [isDict] at h

theorem isDict_exists (v : PyVal) (h : isDict v = true) : ∃ fs, v = .pydict fs := by
  cases v <;> first
    | exact ⟨_, rfl⟩
    | simp [isDict] at h

theorem exOk_materializeConfig (cd : PyVal) :
    exOk (materializeConfig cd) = wellTypedOverrides cd := by
  cases cd with
  | pydict fs =>
    by_cases h1 : isDict (slotD (.pydict fs) "dataset") = true
    · obtain ⟨g1, hg1⟩ := isDict_exists _ h1
      simp only [slotD] at hg1
      by_cases h2 : isDict (slotD (.pydict fs) "sampling") = true
      · obtain ⟨g2, hg2⟩ := isDict_exists _ h2
        simp only [slotD] at hg2
        by_cases h3 : isDict (slotD (.pydict fs) "post_processing") = true
        · obtain ⟨g3, hg3⟩ := isDict_exists _ h3
          simp only [slotD] at hg3
          by_cases h4 : isDict (slotD (slotD (.pydict fs) "post_processing") "binary_mapping") = true
          · obtain ⟨g4, hg4⟩ := isDict_exists _ h4
            simp only [slotD, hg3] at hg4
            by_cases h5 : isDict (slotD (.pydict fs) "model") = true
            · obtain ⟨g5, hg5⟩ := isDict_exists _ h5
              simp only [slotD] at hg5
              by_cases h6 : isDict (slotD (.pydict fs) "metrics") = true
              · obtain ⟨g6, hg6⟩ := isDict_exists _ h6
                simp only [slotD] at hg6
                simp [materializeConfig, wellTypedOverrides, slotD, pyget_pydict,
                  ebind_ok, hg1, hg2, hg3, hg4, hg5, hg6, isDict]
              · rw [Bool.not_eq_true] at h6
                have h6x := h6
                simp only [slotD, isDict] at h6x
                obtain ⟨e6, he6⟩ := pyget_not_dict (slotD (.pydict fs) "metrics") "fairness"
                  (.pylist [.pystr "demographic_parity", .pystr "equalized_odds", .pystr "predictive_parity"])
                  h6
                simp only [slotD] at he6
                simp [materializeConfig, wellTypedOverrides, slotD, pyget_pydict,
                  ebind_ok, ebind_error, hg1, hg2, hg3, hg4, hg5, he6, isDict, h6x]
            · rw [Bool.not_eq_true] at h5
              have h5x := h5
              simp only [slotD, isDict] at h5x
              obtain ⟨e5, he5⟩ := pyget_not_dict (slotD (.pydict fs) "model") "model_task"
                (.pystr "binary_classification") h5
              simp only [slotD] at he5
              simp [materializeConfig, wellTypedOverrides, slotD, pyget_pydict,
                ebind_ok, ebind_error, hg1, hg2, hg3, hg4, he5, isDict, h5x]
          · rw [Bool.not_eq_true] at h4
            have h4x := h4
            simp only [slotD, isDict, hg3] at h4x
            obtain ⟨e4, he4⟩ := pyget_not_dict
              (slotD (slotD (.pydict fs) "post_processing") "binary_mapping")
              "favorable_outcome" (.pystr ">50K") h4
            simp only [slotD, hg3] at he4
            simp [materializeConfig, wellTypedOverrides, slotD, pyget_pydict,
              ebind_ok, ebind_error, hg1, hg2, hg3, he4, isDict, h4x]
        · rw [Bool.not_eq_true] at h3
          have h3x := h3
          simp only [slotD, isDict] at h3x
          obtain ⟨e3, he3⟩ := pyget_not_dict (slotD (.pydict fs) "post_processing")
            "binary_mapping" emptyDict h3
          simp only [slotD] at he3
          simp [materializeConfig, wellTypedOverrides, slotD, pyget_pydict,
            ebind_ok, ebind_error, hg1, hg2, he3, isDict, h3x]
      · rw [Bool.not_eq_true] at h2
        have h2x := h2
        simp only [slotD, isDict] at h2x
        obtain ⟨e2, he2⟩ := pyget_not_dict (slotD (.pydict fs) "sampling") "enabled"
          (.pybool true) h2
        simp only [slotD] at he2
        simp [materializeConfig, wellTypedOverrides, slotD, pyget_pydict,
          ebind_ok, ebind_error, hg1, he2, isDict, h2x]
    · rw [Bool.not_eq_true] at h1
      have h1x := h1
      simp only [slotD, isDict] at h1x
      obtain ⟨e1, he1⟩ := pyget_not_dict (slotD (.pydict fs) "dataset") "name"
        (.pystr "adult-census-income") h1
      simp only [slotD] at he1
      simp [materializeConfig, wellTypedOverrides, slotD, pyget_pydict,
        ebind_ok, ebind_error, he1, isDict, h1x]
  | pynone => rfl
  | pybool b => rfl
  | pyint n => rfl
  | pyfloat m e => rfl
  | pystr s => rfl
  | pylist xs => rfl


theorem get_job_status_delete (store : JobStore) (job_id : Int) :
    get_job_status (delete_job_status store job_id) job_id = none := by
  induction store with
  | nil => rfl
  | cons p rest ih =>
    rcases p with ⟨k, v⟩
    show List.lookup job_id (List.filter (fun q => q.1 != job_id) ((k, v) :: rest)) = none
    rw [List.filter_cons]
    by_cases h : ((k, v).1 != job_id) = true
    · rw [if_pos h]
      have h3 : k ≠ job_id := by simpa using h
      have hne : (job_id == k) = false := beq_eq_false_iff_ne.mpr (Ne.symm h3)
      show (match job_id == k with
        | true => some v
        | false => List.lookup job_id (List.filter (fun q => q.1 != job_id) rest)) = none
      rw [hne]
      exact ih
    · rw [if_neg h]
      exact ih

theorem get_job_status_set (store : JobStore) (job_id : Int) (payload : PyVal) :
    get_job_status (set_job_status store job_id payload) job_id = some payload := by
  simp [get_job_status, set_job_status, List.lookup]

/-! ## Claim theorems -/

/-- C5: the Config Materializer is a deterministic deep-merge onto the
default template: empty overrides reproduce the full default template
exactly, and overriding only `sampling.n_samples = 10` reproduces the
default template everywhere else with the overridden value at that one
path of the produced config (`dataset.sampling.n_samples`). -/
theorem claim5_materialize_default_and_partial_override :
    materializeConfig emptyDict = .ok defaultTemplate ∧
    materializeConfig overrideN10 = .ok (setSamplingN defaultTemplate (.pyint 10)) :=
  ⟨rfl, rfl⟩

/-- C6: the Config Materializer never raises because of a missing override
field (whenever every container slot of the overrides is, when present, a
mapping, it succeeds), and it raises only when some override value has a
type incompatible with its mapping slot (an error implies
`wellTypedOverrides` is false). -/
theorem claim6_materialize_total_unless_incompatible (cd : PyVal) :
    (wellTypedOverrides cd = true → ∃ c, materializeConfig cd = .ok c) ∧
    (∀ e, materializeConfig cd = .error e → wellTypedOverrides cd = false) := by
  have h := exOk_materializeConfig cd
  constructor
  · intro hw
    rw [hw] at h
    cases hm : materializeConfig cd with
    | ok c => exact ⟨c, rfl⟩
    | error e => rw [hm] at h; simp [exOk] at h
  · intro e he
    rw [he] at h
    simpa [exOk] using h.symm

/-- Witness for C6: empty overrides succeed, and a list in the `model` slot
is an incompatible override type. -/
theorem claim6_witness :
    (∃ c, materializeConfig emptyDict = .ok c) ∧ wellTypedOverrides badOverrides = false :=
  ⟨(claim6_materialize_total_unless_incompatible emptyDict).1 rfl,
   (claim6_materialize_total_unless_incompatible badOverrides).2
     "\x27list\x27 object has no attribute \x27get\x27" rfl⟩

/-- C4: status polling has consume-once semantics: a present entry is
returned as JSON 200 and deleted, so an immediately following consume
returns the empty 204 signal and leaves the store unchanged; an absent
entry yields the empty 204 signal (never an error) with no deletion. -/
theorem claim4_status_poll_consume_once (store : JobStore) (job_id : Int) :
    (∀ v, get_job_status store job_id = some v →
      (get_upload_status store job_id).1 = .json200 v ∧
      get_job_status (get_upload_status store job_id).2 job_id = none ∧
      (get_upload_status (get_upload_status store job_id).2 job_id).1 = .empty204 ∧
      (get_upload_status (get_upload_status store job_id).2 job_id).2
        = (get_upload_status store job_id).2) ∧
    (get_job_status store job_id = none →
      (get_upload_status store job_id).1 = .empty204 ∧
      (get_upload_status store job_id).2 = store) := by
  constructor
  · intro v hv
    have hdel := get_job_status_delete store job_id
    refine ⟨?_, ?_, ?_, ?_⟩ <;> simp [get_upload_status, hv, hdel]
  · intro hv
    simp [get_upload_status, hv]

/-- Witness for C4 at a one-entry store. -/
theorem claim4_witness :
    (get_upload_status sampleStore 1).1 = .json200 (.pystr "done") ∧
    (get_upload_status (get_upload_status sampleStore 1).2 1).1 = .empty204 := by
  have h := (claim4_status_poll_consume_once sampleStore 1).1 (.pystr "done") rfl
  exact ⟨h.1, h.2.2.1⟩

/-- C1: when the external computation exits 0 and the results artifact
exists (and the orchestration steps themselves succeed), the record is
transitioned to `completed` with the parsed artifact content as its results
payload, and the completed status entry `\x7bstatus, eval_id, results,
message\x7d` is written to the Transient Status Store under the run's job
id. -/
theorem claim1_runner_success_completed (env : RunEnv) (job_id : Int) (eval_id : String)
    (s0 : RunState) (results : PyVal)
    (h1 : env.runningUpdateError = none) (h2 : env.chdirError = none)
    (h3 : env.subprocError = none) (h4 : env.returncode = 0)
    (h5 : env.artifactExists = true) (h6 : env.artifactContent = .ok results)
    (h7 : env.terminalUpdateError = none) (h8 : env.redisError = none) :
    (run_bias_fairness_evaluation env job_id eval_id s0).1 = .ok () ∧
    (run_bias_fairness_evaluation env job_id eval_id s0).2.record
      = ⟨"completed", some results⟩ ∧
    get_job_status (run_bias_fairness_evaluation env job_id eval_id s0).2.redis job_id
      = some (completedPayload eval_id results) := by
  refine ⟨?_, ?_, ?_⟩ <;>
    simp [run_bias_fairness_evaluation, h1, h2, h3, h4, h5, h6, h7, h8,
      update_bias_fairness_evaluation_status, update_job_status, get_job_status_set]

/-- Witness for C1 at a concrete successful environment. -/
theorem claim1_witness :
    (run_bias_fairness_evaluation envSuccess 1 "eval_1_0" initRunState).1 = .ok () ∧
    (run_bias_fairness_evaluation envSuccess 1 "eval_1_0" initRunState).2.record
      = ⟨"completed", some (.pydict [("accuracy", .pyfloat 95 2)])⟩ ∧
    get_job_status (run_bias_fairness_evaluation envSuccess 1 "eval_1_0" initRunState).2.redis 1
      = some (completedPayload "eval_1_0" (.pydict [("accuracy", .pyfloat 95 2)])) :=
  claim1_runner_success_completed envSuccess 1 "eval_1_0" initRunState
    (.pydict [("accuracy", .pyfloat 95 2)]) rfl rfl rfl rfl rfl rfl rfl rfl

/-- C2: when the external computation exits 0 but the results artifact is
absent (and the orchestration steps themselves succeed), the record reaches
the terminal `failed` state and the status entry written for the job
carries the results-artifact-missing error (`Results file not found` /
`Evaluation failed - results file not generated`), which differs from the
process-error entry written for a failed process whatever its stderr. -/
theorem claim2_missing_results_failure_distinct (env : RunEnv) (job_id : Int)
    (eval_id : String) (s0 : RunState)
    (h1 : env.runningUpdateError = none) (h2 : env.chdirError = none)
    (h3 : env.subprocError = none) (h4 : env.returncode = 0)
    (h5 : env.artifactExists = false)
    (h7 : env.terminalUpdateError = none) (h8 : env.redisError = none) :
    (run_bias_fairness_evaluation env job_id eval_id s0).1 = .ok () ∧
    (run_bias_fairness_evaluation env job_id eval_id s0).2.record = ⟨"failed", none⟩ ∧
    get_job_status (run_bias_fairness_evaluation env job_id eval_id s0).2.redis job_id
      = some (missingResultsPayload eval_id) ∧
    slotD (missingResultsPayload eval_id) "error" = .pystr "Results file not found" ∧
    (∀ st : String, missingResultsPayload eval_id ≠ processErrorPayload eval_id st) := by
  refine ⟨?_, ?_, ?_, ?_, ?_⟩
  · simp [run_bias_fairness_evaluation, h1, h2, h3, h4, h5, h7, h8]
  · simp [run_bias_fairness_evaluation, h1, h2, h3, h4, h5, h7, h8,
      update_bias_fairness_evaluation_status, update_job_status]
  · simp [run_bias_fairness_evaluation, h1, h2, h3, h4, h5, h7, h8,
      update_bias_fairness_evaluation_status, update_job_status, get_job_status_set]
  · simp [slotD, missingResultsPayload, List.lookup]
  · intro st
    simp [missingResultsPayload, processErrorPayload]

/-- Witness for C2 at a concrete environment with exit 0 and no artifact. -/
theorem claim2_witness :
    (run_bias_fairness_evaluation envMissing 1 "eval_1_0" initRunState).2.record
      = ⟨"failed", none⟩ ∧
    get_job_status (run_bias_fairness_evaluation envMissing 1 "eval_1_0" initRunState).2.redis 1
      = some (missingResultsPayload "eval_1_0") := by
  have h := claim2_missing_results_failure_distinct envMissing 1 "eval_1_0" initRunState
    rfl rfl rfl rfl rfl rfl rfl
  exact ⟨h.2.1, h.2.2.1⟩

/-- C3: when the external computation exits nonzero (and the orchestration
steps themselves succeed), the record reaches `failed` and the status entry
written for the job captures the process stderr verbatim in its `error`
field. -/
theorem claim3_process_failure_stderr_verbatim (env : RunEnv) (job_id : Int)
    (eval_id : String) (s0 : RunState)
    (h1 : env.runningUpdateError = none) (h2 : env.chdirError = none)
    (h3 : env.subprocError = none) (h4 : env.returncode ≠ 0)
    (h7 : env.terminalUpdateError = none) (h8 : env.redisError = none) :
    (run_bias_fairness_evaluation env job_id eval_id s0).1 = .ok () ∧
    (run_bias_fairness_evaluation env job_id eval_id s0).2.record = ⟨"failed", none⟩ ∧
    get_job_status (run_bias_fairness_evaluation env job_id eval_id s0).2.redis job_id
      = some (processErrorPayload eval_id env.stderr) ∧
    slotD (processErrorPayload eval_id env.stderr) "error" = .pystr env.stderr := by
  refine ⟨?_, ?_, ?_, ?_⟩
  · simp [run_bias_fairness_evaluation, h1, h2, h3, h4, h7, h8]
  · simp [run_bias_fairness_evaluation, h1, h2, h3, h4, h7, h8,
      update_bias_fairness_evaluation_status, update_job_status]
  · simp [run_bias_fairness_evaluation, h1, h2, h3, h4, h7, h8,
      update_bias_fairness_evaluation_status, update_job_status, get_job_status_set]
  · simp [slotD, processErrorPayload, List.lookup]

/-- Witness for C3: exit 2 with stderr `OOM` yields a failed record whose
status entry's detail is exactly `OOM`. -/
theorem claim3_witness :
    (run_bias_fairness_evaluation envOom 1 "eval_1_0" initRunState).2.record
      = ⟨"failed", none⟩ ∧
    get_job_status (run_bias_fairness_evaluation envOom 1 "eval_1_0" initRunState).2.redis 1
      = some (processErrorPayload "eval_1_0" "OOM") ∧
    slotD (processErrorPayload "eval_1_0" "OOM") "error" = .pystr "OOM" := by
  have h := claim3_process_failure_stderr_verbatim envOom 1 "eval_1_0" initRunState
    rfl rfl rfl (by decide) rfl rfl
  exact ⟨h.2.1, h.2.2.1, h.2.2.2⟩

/-- C7 counterexample: with an orchestration exception (`boom` from the
subprocess invocation) and the record store unavailable during the failure
write, the `except` clause's record update raises and the exception
propagates out of the background worker instead of being swallowed. -/
theorem claim7_counterexample :
    (run_bias_fairness_evaluation envCrashInHandler 1 "eval_1_0" initRunState).1
        = .error "database unavailable" ∧
      (run_bias_fairness_evaluation envCrashInHandler 1 "eval_1_0" initRunState).1
        ≠ .ok () := by
  refine ⟨rfl, ?_⟩
  intro hcontra
  rw [show (run_bias_fairness_evaluation envCrashInHandler 1 "eval_1_0" initRunState).1
      = .error "database unavailable" from rfl] at hcontra
  exact Except.noConfusion hcontra

/-- C7 amended: any exception raised by the orchestration steps, whichever
step raises it (`orchestrationException env = some m`), is caught by the
`except` clause, which transitions the record to `failed` (with no results;
the exception text is recorded only in the transient status entry) and
best-effort writes the failed status entry - a failure of that transient
write is swallowed and never propagates, whatever `redisError` is; but this
holds only when the record-store `failed` transition inside the clause
itself succeeds. -/
theorem claim7_amended_exception_handling (env : RunEnv) (job_id : Int)
    (eval_id : String) (s0 : RunState) (m : String)
    (hm : orchestrationException env = some m) (h4 : env.exceptUpdateError = none) :
    (run_bias_fairness_evaluation env job_id eval_id s0).1 = .ok () ∧
    (run_bias_fairness_evaluation env job_id eval_id s0).2.record = ⟨"failed", none⟩ ∧
    (env.redisError = none →
      get_job_status (run_bias_fairness_evaluation env job_id eval_id s0).2.redis job_id
        = some (exceptionPayload eval_id m)) := by
  rcases env with ⟨ru, ch, su, rc, st, ae, ac, tu, ex, re⟩
  cases ru <;> cases ch <;> cases su <;> cases ae <;> cases ac <;> cases tu <;> cases ex <;>
    cases re <;> by_cases hrc : rc = 0 <;>
    simp_all [run_bias_fairness_evaluation, runExceptClause, orchestrationException,
      update_bias_fairness_evaluation_status, update_job_status, get_job_status_set]

/-- Witness for the amended C7 at the spec's own example of an orchestration
exception: the record store unavailable during the `running` transition. The
handler catches it, records `failed`, writes the failure entry, and the
worker does not crash. -/
theorem claim7_witness :
    (run_bias_fairness_evaluation envRunningFails 1 "eval_1_0" initRunState).1 = .ok () ∧
    (run_bias_fairness_evaluation envRunningFails 1 "eval_1_0" initRunState).2.record
      = ⟨"failed", none⟩ ∧
    get_job_status (run_bias_fairness_evaluation envRunningFails 1 "eval_1_0" initRunState).2.redis 1
      = some (exceptionPayload "eval_1_0" "database unavailable") := by
  have h := claim7_amended_exception_handling envRunningFails 1 "eval_1_0" initRunState
    "database unavailable" rfl rfl
  exact ⟨h.1, h.2.1, h.2.2 rfl⟩

/-- C9 counterexample: when the initial transition to `running` raises (the
record store briefly unavailable), the `except` clause applies `failed`
directly, so the first status update applied to the record is `failed`,
not `running`. -/
theorem claim9_counterexample :
    traceStatuses (run_bias_fairness_evaluation envRunningFails 1 "eval_1_0" initRunState).2
        = ["failed"] ∧
      ∀ rest : List String,
        traceStatuses (run_bias_fairness_evaluation envRunningFails 1 "eval_1_0" initRunState).2
          ≠ "running" :: rest := by
  refine ⟨rfl, ?_⟩
  intro rest h
  rw [show traceStatuses (run_bias_fairness_evaluation envRunningFails 1 "eval_1_0" initRunState).2
      = ["failed"] from rfl] at h
  simp at h

/-- C9 amended: across all executions the sequence of status updates applied
to the record is one of `[]`, `[failed]`, `[running]`,
`[running, completed]`, `[running, failed]` - so at most one terminal update
is ever applied and no update follows a terminal one; and in executions
where the `running` update and the `except` clause's update succeed, the
sequence is exactly `running` followed by one terminal status. -/
theorem claim9_amended_lifecycle_trace (env : RunEnv) (job_id : Int)
    (eval_id : String) (s0 : RunState) (h0 : s0.trace = []) :
    (traceStatuses (run_bias_fairness_evaluation env job_id eval_id s0).2 = [] ∨
     traceStatuses (run_bias_fairness_evaluation env job_id eval_id s0).2 = ["failed"] ∨
     traceStatuses (run_bias_fairness_evaluation env job_id eval_id s0).2 = ["running"] ∨
     traceStatuses (run_bias_fairness_evaluation env job_id eval_id s0).2 = ["running", "completed"] ∨
     traceStatuses (run_bias_fairness_evaluation env job_id eval_id s0).2 = ["running", "failed"]) ∧
    (env.runningUpdateError = none → env.exceptUpdateError = none →
      traceStatuses (run_bias_fairness_evaluation env job_id eval_id s0).2 = ["running", "completed"] ∨
      traceStatuses (run_bias_fairness_evaluation env job_id eval_id s0).2 = ["running", "failed"]) := by
  rcases env with ⟨ru, ch, su, rc, st, ae, ac, tu, ex, re⟩
  cases ru <;> cases ch <;> cases su <;> cases ae <;> cases ac <;> cases tu <;> cases ex <;>
    cases re <;> by_cases hrc : rc = 0 <;>
    simp_all [run_bias_fairness_evaluation, runExceptClause, traceStatuses,
      update_bias_fairness_evaluation_status, update_job_status]

/-- Witness for the amended C9: a fully successful run applies exactly
`running` then one terminal status. -/
theorem claim9_witness :
    traceStatuses (run_bias_fairness_evaluation envSuccess 1 "eval_1_0" initRunState).2
        = ["running", "completed"] ∨
      traceStatuses (run_bias_fairness_evaluation envSuccess 1 "eval_1_0" initRunState).2
        = ["running", "failed"] :=
  (claim9_amended_lifecycle_trace envSuccess 1 "eval_1_0" initRunState rfl).2 rfl rfl

theorem findEval_filter_none (store : EvalStore) (eval_id tenant : String) :
    findEval (List.filter (fun r => !(r.eval_id == eval_id && r.tenant == tenant)) store)
      eval_id tenant = none := by
  unfold findEval
  rw [List.find?_eq_none]
  intro r hr
  have hp := List.of_mem_filter hr
  simp only [Bool.not_eq_true'] at hp
  simp [hp]

/-- C8: deleting an evaluation that exists for the tenant removes it and
reports success with a JSON 200, while deleting an id absent for that
tenant yields the handled NotFound response (HTTP 404) with the store
unchanged - every outcome of the controller is a handled HTTP response,
never an unhandled error. -/
theorem claim8_delete_found_and_notfound (store : EvalStore) (eval_id tenant : String) :
    (∀ r, findEval store eval_id tenant = some r →
      (delete_bias_fairness_evaluation_controller none store eval_id tenant).1
          = .json200 (.pydict [("message", .pystr ("Evaluation " ++ eval_id ++ " deleted successfully"))]) ∧
        findEval (delete_bias_fairness_evaluation_controller none store eval_id tenant).2
          eval_id tenant = none) ∧
    (findEval store eval_id tenant = none →
      (delete_bias_fairness_evaluation_controller none store eval_id tenant).1
          = .httpError 404 ("Evaluation with ID " ++ eval_id ++ " not found") ∧
        (delete_bias_fairness_evaluation_controller none store eval_id tenant).2 = store) := by
  constructor
  · intro r hr
    constructor
    · simp [delete_bias_fairness_evaluation_controller, delete_bias_fairness_evaluation, hr]
    · have hnone := findEval_filter_none store eval_id tenant
      simpa [delete_bias_fairness_evaluation_controller, delete_bias_fairness_evaluation, hr]
        using hnone
  · intro hr
    constructor <;>
      simp [delete_bias_fairness_evaluation_controller, delete_bias_fairness_evaluation, hr]

/-- Witness for C8: deleting the sample record under its own tenant
succeeds with 200; deleting the same id under another tenant is a 404. -/
theorem claim8_witness :
    (delete_bias_fairness_evaluation_controller none sampleEvals "eval_1_7" "tenantA").1
        = .json200 (.pydict [("message", .pystr ("Evaluation " ++ "eval_1_7" ++ " deleted successfully"))]) ∧
      (delete_bias_fairness_evaluation_controller none sampleEvals "eval_1_7" "tenantB").1
        = .httpError 404 ("Evaluation with ID " ++ "eval_1_7" ++ " not found") := by
  constructor
  · exact ((claim8_delete_found_and_notfound sampleEvals "eval_1_7" "tenantA").1 _ rfl).1
  · exact ((claim8_delete_found_and_notfound sampleEvals "eval_1_7" "tenantB").2 rfl).1

theorem submitFields_ok (cd c : PyVal) (h : materializeConfig cd = .ok c) :
    ∃ mn dn mt lb, submitFields cd = .ok (c, mn, dn, mt, lb) := by
  have hok : wellTypedOverrides cd = true := by
    rw [← exOk_materializeConfig, h]
    rfl
  unfold wellTypedOverrides at hok
  simp only [Bool.and_eq_true] at hok
  obtain ⟨⟨⟨⟨⟨⟨hcd, hda⟩, hsa⟩, hpp⟩, hbm⟩, hmo⟩, hme⟩ := hok
  obtain ⟨fs, rfl⟩ := isDict_exists cd hcd
  obtain ⟨gm, hgm⟩ := isDict_exists _ hmo
  simp only [slotD] at hgm
  obtain ⟨gd, hgd⟩ := isDict_exists _ hda
  simp only [slotD] at hgd
  exact ⟨(List.lookup "model_id" gm).getD (.pystr "Unknown Model"),
    (List.lookup "name" gd).getD (.pystr "Unknown Dataset"),
    (List.lookup "model_task" gm).getD (.pystr "binary_classification"),
    (List.lookup "label_behavior" gm).getD (.pystr "binary"),
    by simp [submitFields, h, pyget_pydict, ebind_ok, hgm, hgd]⟩

/-- C10: every successful submission writes its materialized config to the
same single fixed filesystem path (`BiasAndFairnessModule/configs/config.yaml`),
overwriting what a previous submission wrote there, and passes that shared
path to the scheduled Runner; each submission's own config survives only as
the serialized snapshot stored with its durable evaluation record. -/
theorem claim10_shared_config_path_snapshot (t1 t2 : Int) (cd1 cd2 : PyVal)
    (tn1 tn2 : String) (s : SubmitState) (c1 c2 : PyVal)
    (h1 : materializeConfig cd1 = .ok c1) (h2 : materializeConfig cd2 = .ok c2) :
    (create_config_and_run_evaluation t1 cd1 tn1 s).2.tasks
        = s.tasks ++ [(s.jobCounter + 1, configYamlPath, evalIdOf (s.jobCounter + 1) t1, tn1)] ∧
    List.lookup configYamlPath (create_config_and_run_evaluation t1 cd1 tn1 s).2.fs = some c1 ∧
    (create_config_and_run_evaluation t2 cd2 tn2
        (create_config_and_run_evaluation t1 cd1 tn1 s).2).2.tasks
      = s.tasks ++ [(s.jobCounter + 1, configYamlPath, evalIdOf (s.jobCounter + 1) t1, tn1),
          (s.jobCounter + 1 + 1, configYamlPath, evalIdOf (s.jobCounter + 1 + 1) t2, tn2)] ∧
    List.lookup configYamlPath
        (create_config_and_run_evaluation t2 cd2 tn2
          (create_config_and_run_evaluation t1 cd1 tn1 s).2).2.fs = some c2 ∧
    ∃ r1 r2 : BFEvaluation,
      (create_config_and_run_evaluation t2 cd2 tn2
          (create_config_and_run_evaluation t1 cd1 tn1 s).2).2.evals = r2 :: r1 :: s.evals ∧
        r1.config_data = c1 ∧ r1.tenant = tn1 ∧ r2.config_data = c2 ∧ r2.tenant = tn2 := by
  obtain ⟨mn1, dn1, mt1, lb1, hsf1⟩ := submitFields_ok cd1 c1 h1
  obtain ⟨mn2, dn2, mt2, lb2, hsf2⟩ := submitFields_ok cd2 c2 h2
  refine ⟨?_, ?_, ?_, ?_, ?_⟩
  · simp [create_config_and_run_evaluation, hsf1]
  · simp [create_config_and_run_evaluation, hsf1, fsWrite, List.lookup]
  · simp [create_config_and_run_evaluation, hsf1, hsf2]
  · simp [create_config_and_run_evaluation, hsf1, hsf2, fsWrite, List.lookup]
  · exact ⟨⟨evalIdOf (s.jobCounter + 1) t1, mn1, dn1, mt1, lb1, c1, tn1, "pending", none⟩,
      ⟨evalIdOf (s.jobCounter + 1 + 1) t2, mn2, dn2, mt2, lb2, c2, tn2, "pending", none⟩,
      by simp [create_config_and_run_evaluation, hsf1, hsf2], rfl, rfl, rfl, rfl⟩

/-- Witness for C10: after a default submission followed by a submission
overriding `sampling.n_samples = 10`, the shared path holds the second
submission's config. -/
theorem claim10_witness :
    List.lookup configYamlPath
        (create_config_and_run_evaluation 1 overrideN10 "tenantB"
          (create_config_and_run_evaluation 0 emptyDict "tenantA" initSubmitState).2).2.fs
      = some (setSamplingN defaultTemplate (.pyint 10)) :=
  (claim10_shared_config_path_snapshot 0 1 emptyDict overrideN10 "tenantA" "tenantB"
    initSubmitState defaultTemplate (setSamplingN defaultTemplate (.pyint 10)) rfl rfl).2.2.2.1
